import Mathlib

/-!
Shallow embedding of the bbalgjs library (Baba algorithm for robustly
determining status changes of tracked objects).

The repository contains two historical versions of `stateVerdict`:

* Variant A ("strict ratio mode", `src` lines 13-49): takes only the two
  tracking histories, throws on non-array / empty / shorter-than-2 inputs,
  and classifies by the ratios `trueCount / length` against the thresholds
  0.5, 0.9 and 0.1.
* Variant B ("count-threshold mode", `src` lines 106-164): additionally takes
  optional `longMaxLength` / `shortMaxLength` parameters, degrades gracefully
  (all-false result) on empty or incomplete histories, and classifies by
  integer counts against `floor(N/2)`, `M - 1` and `1`.

JavaScript numbers are embedded as `JsNum`: NaN, the two infinities, or a
finite value modelled as a rational.  The only arithmetic the code performs
on non-integer numbers is comparison (`<=`, `<`) and the ratio comparisons of
Variant A; for JavaScript array lengths (below 2^32) and counts, double
rounding cannot change the outcome of any of these comparisons against the
thresholds 1/2, 9/10 and 1/10, so exact rational comparison is a faithful
model.  Comparisons involving NaN are always false, as in JavaScript.

Errors are modelled with `Except String`, carrying the thrown message.  The
spec classifies the messages into the kinds `InvalidArgument` and
`InsufficientHistory`; predicates `isInvalidArgument` / `isInsufficientHistory`
implement that classification.
-/

/-- Result record returned by `stateVerdict`: three independent flags. -/
structure VerdictResult where
  stateInProgress : Bool
  stateStartJudgment : Bool
  stateEndJudgment : Bool
deriving DecidableEq, Repr

/-- The all-false verdict returned by Variant B's graceful-degradation paths. -/
def allFalseVerdict : VerdictResult :=
  { stateInProgress := false, stateStartJudgment := false, stateEndJudgment := false }

/-- A JavaScript number: NaN, an infinity, or a finite value (exact rational). -/
inductive JsNum where
  | nan
  | posInf
  | negInf
  | fin (q : ℚ)
deriving DecidableEq, Repr

/-- JavaScript strict `<` on numbers: any comparison with NaN is false. -/
def jsLt : JsNum → JsNum → Bool
  | .nan, _ => false
  | _, .nan => false
  | .negInf, .negInf => false
  | .negInf, _ => true
  | .posInf, _ => false
  | .fin _, .posInf => true
  | .fin _, .negInf => false
  | .fin q, .fin r => decide (q < r)

/-- JavaScript `<=` on numbers: any comparison with NaN is false. -/
def jsLe : JsNum → JsNum → Bool
  | .nan, _ => false
  | _, .nan => false
  | .negInf, _ => true
  | .posInf, .posInf => true
  | .posInf, _ => false
  | .fin _, .posInf => true
  | .fin _, .negInf => false
  | .fin q, .fin r => decide (q ≤ r)

/-- A value passed as a tracking-history argument: either an actual array of
booleans, or some value that is not an array (`Array.isArray` fails). -/
inductive HistoryArg where
  | arr (l : List Bool)
  | notArr
deriving DecidableEq, Repr

/-- A value passed as an optional maxLength argument: `undefined`, a defined
value whose `typeof` is not `'number'`, or a number (NaN and infinities are
numbers). -/
inductive MaxLenArg where
  | undef
  | notNum
  | num (x : JsNum)
deriving DecidableEq, Repr

/-- Number of elements strictly equal to `true`
(`history.filter(val => val === true).length`). -/
def countTrue (l : List Bool) : Nat :=
  (l.filter (fun val => val == true)).length

/-- Spec error kind `InvalidArgument`: the argument-validation messages thrown
by the two `stateVerdict` versions and by `createFixedQueue`. -/
def isInvalidArgument (m : String) : Bool :=
  m == "Both tracking histories must be arrays" ||
  m == "Tracking histories cannot be empty" ||
  m == "longMaxLength must be a positive number" ||
  m == "shortMaxLength must be a positive number" ||
  m == "Both maxLength parameters must be provided together" ||
  m == "maxLength must be a positive integer"

/-- Spec error kind `InsufficientHistory` (Variant A only). -/
def isInsufficientHistory (m : String) : Bool :=
  m == "Insufficient history entries for processing"

namespace VariantA

/-- Variant A `stateVerdict` (first historical version, `src` lines 13-49):
validates that both histories are arrays, non-empty, and of length at least 2,
then classifies by the exact ratios against 1/2, 9/10 and 1/10. -/
def stateVerdict (longTrackingHistory shortTrackingHistory : HistoryArg) :
    Except String VerdictResult :=
  match longTrackingHistory, shortTrackingHistory with
  | .arr longH, .arr shortH =>
    let longLength := longH.length
    let shortLength := shortH.length
    if longLength = 0 ∨ shortLength = 0 then
      .error "Tracking histories cannot be empty"
    else if longLength < 2 ∨ shortLength < 2 then
      .error "Insufficient history entries for processing"
    else
      let longTrueCount := countTrue longH
      let shortTrueCount := countTrue shortH
      let longRatio : ℚ := (longTrueCount : ℚ) / (longLength : ℚ)
      let shortRatio : ℚ := (shortTrueCount : ℚ) / (shortLength : ℚ)
      .ok { stateInProgress := decide (longRatio > 1/2 ∧ shortRatio ≥ 9/10)
            stateStartJudgment := decide (longRatio = 1/2 ∧ shortRatio ≥ 9/10)
            stateEndJudgment := decide (longRatio = 1/2 ∧ shortRatio ≤ 1/10) }
  | _, _ => .error "Both tracking histories must be arrays"

end VariantA

namespace VariantB

/-- Throw-condition for one optional maxLength argument (`src` lines 114, 117):
`x !== undefined && (typeof x !== 'number' || x <= 0)`.  NaN is a number and
`NaN <= 0` is false, so NaN is not rejected. -/
def badMaxLen : MaxLenArg → Bool
  | .undef => false
  | .notNum => true
  | .num x => jsLe x (.fin 0)

/-- The count-threshold judgments of Variant B (`src` lines 150-163):
`N = longLength`, `M = shortLength`, thresholds `floor(N/2)`, `M - 1` and `1`.
`Math.floor(longLength / 2)` on a natural number is natural floor division;
`shortLength - 1` is computed in `Int` as in JavaScript (it is `-1` when
`M = 0`). -/
def judge (longH shortH : List Bool) : VerdictResult :=
  let longTrueCount := countTrue longH
  let shortTrueCount := countTrue shortH
  let halfLong := longH.length / 2
  { stateInProgress :=
      decide (longTrueCount ≥ halfLong ∧ (shortTrueCount : ℤ) ≥ (shortH.length : ℤ) - 1)
    stateStartJudgment :=
      decide (longTrueCount = halfLong ∧ (shortTrueCount : ℤ) ≥ (shortH.length : ℤ) - 1)
    stateEndJudgment :=
      decide (longTrueCount = halfLong ∧ shortTrueCount ≤ 1) }

/-- Variant B after argument validation (`src` lines 126-164): empty histories
yield the all-false verdict; when both maxLengths were supplied (`some`), a
history shorter than its expected maxLength yields the all-false verdict;
otherwise the count-threshold judgments are computed.  After validation the
maxLength arguments are either both `undefined` or both numbers, modelled as
`Option JsNum`. -/
def afterValidation (longH shortH : List Bool) (longMaxLength shortMaxLength : Option JsNum) :
    VerdictResult :=
  let longLength := longH.length
  let shortLength := shortH.length
  if longLength = 0 ∨ shortLength = 0 then
    allFalseVerdict
  else
    match longMaxLength, shortMaxLength with
    | some lmax, some smax =>
      if jsLt (.fin (longLength : ℚ)) lmax ∨ jsLt (.fin (shortLength : ℚ)) smax then
        allFalseVerdict
      else
        judge longH shortH
    | _, _ => judge longH shortH

/-- Variant B `stateVerdict` (second historical version, `src` lines 106-164):
array check, validation of the optional maxLength parameters (each supplied one
must be a number not `<= 0`; both must be supplied together), then the
empty-history and incomplete-history all-false short-circuits and the
count-threshold judgments. -/
def stateVerdict (longTrackingHistory shortTrackingHistory : HistoryArg)
    (longMaxLength shortMaxLength : MaxLenArg) : Except String VerdictResult :=
  match longTrackingHistory, shortTrackingHistory with
  | .arr longH, .arr shortH =>
    if badMaxLen longMaxLength then
      .error "longMaxLength must be a positive number"
    else if badMaxLen shortMaxLength then
      .error "shortMaxLength must be a positive number"
    else if (longMaxLength == .undef) != (shortMaxLength == .undef) then
      .error "Both maxLength parameters must be provided together"
    else
      match longMaxLength, shortMaxLength with
      | .num lmax, .num smax => .ok (afterValidation longH shortH (some lmax) (some smax))
      | _, _ => .ok (afterValidation longH shortH none none)
  | _, _ => .error "Both tracking histories must be arrays"

end VariantB

/-- A fixed-size queue: its capacity and its current items, oldest first. -/
structure FixedQueue (α : Type) where
  maxLength : Nat
  items : List α
deriving DecidableEq, Repr

namespace FixedQueue

/-- `push` (`src` lines 179-184): append the item, then drop the oldest element
if the length now exceeds the capacity (`items.shift()`). -/
def push (q : FixedQueue α) (item : α) : FixedQueue α :=
  let items := q.items ++ [item]
  if items.length > q.maxLength then
    { q with items := items.drop 1 }
  else
    { q with items := items }

/-- `toArray` (`src` lines 185-187): the items, oldest first (the JavaScript
code returns a fresh copy; lists are values here, so the copy is implicit). -/
def toArray (q : FixedQueue α) : List α := q.items

/-- Current number of items. -/
def length (q : FixedQueue α) : Nat := q.items.length

/-- Push a whole sequence of items in order. -/
def pushAll (q : FixedQueue α) (xs : List α) : FixedQueue α :=
  xs.foldl push q

end FixedQueue

/-- `Number.isInteger` on the embedded JavaScript numbers. -/
def jsIsInteger : JsNum → Bool
  | .fin q => q.den == 1
  | _ => false

/-- `createFixedQueue` (`src` lines 171-195): `maxLength` must be an integer
strictly greater than 0, else `InvalidArgument`; the queue starts empty. -/
def createFixedQueue (α : Type) (maxLength : JsNum) : Except String (FixedQueue α) :=
  if !jsIsInteger maxLength || jsLe maxLength (.fin 0) then
    .error "maxLength must be a positive integer"
  else
    match maxLength with
    | .fin q => .ok { maxLength := q.num.toNat, items := [] }
    | _ => .error "maxLength must be a positive integer"

deriving instance DecidableEq for Except

/-! Helper lemmas about the JavaScript number comparisons. -/

/-- A number strictly greater than 0 is not `<= 0` (so it passes validation). -/
theorem jsLe_zero_eq_false_of_pos {x : JsNum} (h : jsLt (.fin 0) x = true) :
    jsLe x (.fin 0) = false := by
  cases x <;> simp [jsLt, jsLe] at h ⊢
  linarith

/-- A number `<=` a finite value is not strictly greater than it. -/
theorem jsLt_eq_false_of_jsLe {x : JsNum} {q : ℚ} (h : jsLe x (.fin q) = true) :
    jsLt (.fin q) x = false := by
  cases x <;> simp [jsLt, jsLe] at h ⊢
  linarith

/-- A positive number `<=` a natural-number length forces the length positive. -/
theorem length_pos_of_pos_jsLe {x : JsNum} {n : ℕ} (h : jsLt (.fin 0) x = true)
    (h2 : jsLe x (.fin (n : ℚ)) = true) : 0 < n :=
  by
  cases x <;> simp [jsLt, jsLe] at h h2
  have : (0 : ℚ) < (n : ℚ) := lt_of_lt_of_le h h2
  exact_mod_cast this

/-! Variant A: the computed result on the happy path. -/

/-- On histories of length at least 2, Variant A returns the ratio-threshold
verdict with no error. -/
theorem VariantA.stateVerdict_ratio_eq (l s : List Bool) (hl : 2 ≤ l.length)
    (hs : 2 ≤ s.length) :
    VariantA.stateVerdict (.arr l) (.arr s) =
      .ok { stateInProgress :=
              decide ((countTrue l : ℚ) / (l.length : ℚ) > 1/2 ∧
                (countTrue s : ℚ) / (s.length : ℚ) ≥ 9/10)
            stateStartJudgment :=
              decide ((countTrue l : ℚ) / (l.length : ℚ) = 1/2 ∧
                (countTrue s : ℚ) / (s.length : ℚ) ≥ 9/10)
            stateEndJudgment :=
              decide ((countTrue l : ℚ) / (l.length : ℚ) = 1/2 ∧
                (countTrue s : ℚ) / (s.length : ℚ) ≤ 1/10) } := by
  have h0 : ¬(l.length = 0 ∨ s.length = 0) := by omega
  have h1 : ¬(l.length < 2 ∨ s.length < 2) := by omega
  simp only [VariantA.stateVerdict]
  rw [if_neg h0, if_neg h1]

/-- C1: Variant A (`stateVerdict` with no length parameters), on boolean arrays
of length at least 2 each, returns `stateInProgress = (longRatio > 0.5 AND
shortRatio >= 0.9)`, `stateStartJudgment = (longRatio == 0.5 AND shortRatio >=
0.9)` and `stateEndJudgment = (longRatio == 0.5 AND shortRatio <= 0.1)`, with
`longRatio = countTrue(long)/length(long)` and `shortRatio =
countTrue(short)/length(short)`. -/
theorem variantA_strict_ratio_formulas (l s : List Bool) (hl : 2 ≤ l.length)
    (hs : 2 ≤ s.length) :
    VariantA.stateVerdict (.arr l) (.arr s) =
      .ok { stateInProgress :=
              decide ((countTrue l : ℚ) / (l.length : ℚ) > 1/2 ∧
                (countTrue s : ℚ) / (s.length : ℚ) ≥ 9/10)
            stateStartJudgment :=
              decide ((countTrue l : ℚ) / (l.length : ℚ) = 1/2 ∧
                (countTrue s : ℚ) / (s.length : ℚ) ≥ 9/10)
            stateEndJudgment :=
              decide ((countTrue l : ℚ) / (l.length : ℚ) = 1/2 ∧
                (countTrue s : ℚ) / (s.length : ℚ) ≤ 1/10) } :=
  VariantA.stateVerdict_ratio_eq l s hl hs

/-- Witness for C1: the repository's "state start" test case,
`stateVerdict([F,F,T,T],[T,T])`, evaluated through the theorem. -/
theorem variantA_strict_ratio_formulas_witness :
    2 ≤ ([false, false, true, true] : List Bool).length ∧
    2 ≤ ([true, true] : List Bool).length ∧
    VariantA.stateVerdict (.arr [false, false, true, true]) (.arr [true, true]) =
      .ok { stateInProgress := false, stateStartJudgment := true, stateEndJudgment := false } :=
  ⟨by decide, by decide, by
    rw [variantA_strict_ratio_formulas [false, false, true, true] [true, true]
      (by decide) (by decide)]
    norm_num [countTrue]⟩

/-- C2: Variant A error contract: non-array inputs fail with `InvalidArgument`;
empty arrays fail with `InvalidArgument`; non-empty arrays with fewer than 2
elements fail with `InsufficientHistory`; otherwise the call returns a result
without error. -/
theorem variantA_error_contract :
    (∀ long short : HistoryArg, long = .notArr ∨ short = .notArr →
        ∃ m, VariantA.stateVerdict long short = .error m ∧ isInvalidArgument m = true) ∧
    (∀ l s : List Bool, l = [] ∨ s = [] →
        ∃ m, VariantA.stateVerdict (.arr l) (.arr s) = .error m ∧
          isInvalidArgument m = true) ∧
    (∀ l s : List Bool, l ≠ [] → s ≠ [] → l.length < 2 ∨ s.length < 2 →
        ∃ m, VariantA.stateVerdict (.arr l) (.arr s) = .error m ∧
          isInsufficientHistory m = true) ∧
    (∀ l s : List Bool, 2 ≤ l.length → 2 ≤ s.length →
        ∃ r, VariantA.stateVerdict (.arr l) (.arr s) = Except.ok r) := by
  refine ⟨?_, ?_, ?_, ?_⟩
  · rintro long short (rfl | rfl)
    · cases short <;> exact ⟨_, rfl, by decide⟩
    · cases long <;> exact ⟨_, rfl, by decide⟩
  · intro l s h
    have h0 : l.length = 0 ∨ s.length = 0 := by
      rcases h with rfl | rfl
      · exact Or.inl rfl
      · exact Or.inr rfl
    refine ⟨"Tracking histories cannot be empty", ?_, by decide⟩
    simp only [VariantA.stateVerdict]
    rw [if_pos h0]
  · intro l s h1 h2 h3
    have h0 : ¬(l.length = 0 ∨ s.length = 0) := by
      rintro (h | h)
      · exact h1 (List.length_eq_zero.mp h)
      · exact h2 (List.length_eq_zero.mp h)
    refine ⟨"Insufficient history entries for processing", ?_, by decide⟩
    simp only [VariantA.stateVerdict]
    rw [if_neg h0, if_pos h3]
  · intro l s hl hs
    exact ⟨_, VariantA.stateVerdict_ratio_eq l s hl hs⟩

/-- Witness for C2: each of the four branches of the contract evaluated at a
concrete input. -/
theorem variantA_error_contract_witness :
    (∃ m, VariantA.stateVerdict .notArr (.arr [true]) = .error m ∧
      isInvalidArgument m = true) ∧
    (∃ m, VariantA.stateVerdict (.arr []) (.arr [true]) = .error m ∧
      isInvalidArgument m = true) ∧
    (∃ m, VariantA.stateVerdict (.arr [true]) (.arr [true]) = .error m ∧
      isInsufficientHistory m = true) ∧
    (∃ r, VariantA.stateVerdict (.arr [true, true]) (.arr [true, true]) = Except.ok r) :=
  ⟨variantA_error_contract.1 .notArr (.arr [true]) (Or.inl rfl),
   variantA_error_contract.2.1 [] [true] (Or.inl rfl),
   variantA_error_contract.2.2.1 [true] [true] (by decide) (by decide) (Or.inl (by decide)),
   variantA_error_contract.2.2.2 [true, true] [true, true] (by decide) (by decide)⟩

/-- C7: in Variant A, on valid inputs (both arrays of length at least 2), the
returned start and end judgments are never both true, and both can be false
simultaneously. -/
theorem variantA_start_end_never_both :
    (∀ (l s : List Bool) (r : VerdictResult), 2 ≤ l.length → 2 ≤ s.length →
        VariantA.stateVerdict (.arr l) (.arr s) = Except.ok r →
        ¬(r.stateStartJudgment = true ∧ r.stateEndJudgment = true)) ∧
    (∃ (l s : List Bool) (r : VerdictResult), 2 ≤ l.length ∧ 2 ≤ s.length ∧
        VariantA.stateVerdict (.arr l) (.arr s) = Except.ok r ∧
        r.stateStartJudgment = false ∧ r.stateEndJudgment = false) := by
  constructor
  · intro l s r hl hs hok hboth
    obtain ⟨h1, h2⟩ := hboth
    rw [VariantA.stateVerdict_ratio_eq l s hl hs] at hok
    injection hok with hr
    subst hr
    simp only [decide_eq_true_eq] at h1 h2
    linarith [h1.2, h2.2]
  · refine ⟨[true, false], [false, true], allFalseVerdict, by decide, by decide, ?_, rfl, rfl⟩
    rw [VariantA.stateVerdict_ratio_eq _ _ (by decide) (by decide)]
    norm_num [countTrue, allFalseVerdict]

/-- Witness for C7: the mutual-exclusion implication applied at the concrete
valid input `([T,F],[F,T])`, whose result has both judgments false. -/
theorem variantA_start_end_never_both_witness :
    2 ≤ ([true, false] : List Bool).length ∧ 2 ≤ ([false, true] : List Bool).length ∧
    VariantA.stateVerdict (.arr [true, false]) (.arr [false, true]) =
      Except.ok allFalseVerdict ∧
    ¬(allFalseVerdict.stateStartJudgment = true ∧
      allFalseVerdict.stateEndJudgment = true) := by
  have hok : VariantA.stateVerdict (.arr [true, false]) (.arr [false, true]) =
      Except.ok allFalseVerdict := by
    rw [VariantA.stateVerdict_ratio_eq _ _ (by decide) (by decide)]
    norm_num [countTrue, allFalseVerdict]
  exact ⟨by decide, by decide, hok,
    variantA_start_end_never_both.1 [true, false] [false, true] allFalseVerdict
      (by decide) (by decide) hok⟩

/-! Variant B: structural reduction lemmas. -/

/-- With both maxLengths supplied as numbers passing validation, Variant B
reduces to its post-validation computation. -/
theorem VariantB.stateVerdict_num_num (l s : List Bool) (lmax smax : JsNum)
    (hbl : jsLe lmax (.fin 0) = false) (hbs : jsLe smax (.fin 0) = false) :
    VariantB.stateVerdict (.arr l) (.arr s) (.num lmax) (.num smax) =
      .ok (VariantB.afterValidation l s (some lmax) (some smax)) := by
  simp [VariantB.stateVerdict, VariantB.badMaxLen, hbl, hbs]

/-- With both maxLengths omitted, Variant B reduces to its post-validation
computation with no expected lengths. -/
theorem VariantB.stateVerdict_undef_undef (l s : List Bool) :
    VariantB.stateVerdict (.arr l) (.arr s) .undef .undef =
      .ok (VariantB.afterValidation l s none none) := rfl

/-- The post-validation computation with both expected lengths present,
written as an if-chain. -/
theorem VariantB.afterValidation_some_eq (l s : List Bool) (lmax smax : JsNum) :
    VariantB.afterValidation l s (some lmax) (some smax) =
      if l.length = 0 ∨ s.length = 0 then allFalseVerdict
      else if jsLt (.fin (l.length : ℚ)) lmax = true ∨
          jsLt (.fin (s.length : ℚ)) smax = true then allFalseVerdict
      else VariantB.judge l s := rfl

/-- The post-validation computation with no expected lengths: empty check,
then the count-threshold judgments. -/
theorem VariantB.afterValidation_none_eq (l s : List Bool) :
    VariantB.afterValidation l s none none =
      if l.length = 0 ∨ s.length = 0 then allFalseVerdict
      else VariantB.judge l s := rfl

/-- On complete histories (length at least the supplied positive maxLength on
both sides), Variant B returns the count-threshold judgments. -/
theorem VariantB.stateVerdict_complete (l s : List Bool) (lmax smax : JsNum)
    (hL : jsLt (.fin 0) lmax = true) (hS : jsLt (.fin 0) smax = true)
    (hl : jsLe lmax (.fin (l.length : ℚ)) = true)
    (hs : jsLe smax (.fin (s.length : ℚ)) = true) :
    VariantB.stateVerdict (.arr l) (.arr s) (.num lmax) (.num smax) =
      .ok (VariantB.judge l s) := by
  rw [VariantB.stateVerdict_num_num l s lmax smax
    (jsLe_zero_eq_false_of_pos hL) (jsLe_zero_eq_false_of_pos hS)]
  rw [VariantB.afterValidation_some_eq]
  have hlpos : 0 < l.length := length_pos_of_pos_jsLe hL hl
  have hspos : 0 < s.length := length_pos_of_pos_jsLe hS hs
  rw [if_neg (by omega)]
  rw [if_neg]
  rintro (h | h)
  · rw [jsLt_eq_false_of_jsLe hl] at h
    exact Bool.false_ne_true h
  · rw [jsLt_eq_false_of_jsLe hs] at h
    exact Bool.false_ne_true h

/-- C5: Variant B with both positive maxLengths supplied and complete histories
(`length(long) >= longMaxLength`, `length(short) >= shortMaxLength`) returns
`stateInProgress = (longTrue >= floor(N/2) AND shortTrue >= M-1)`,
`stateStartJudgment = (longTrue == floor(N/2) AND shortTrue >= M-1)` and
`stateEndJudgment = (longTrue == floor(N/2) AND shortTrue <= 1)`, counting
elements strictly equal to true. -/
theorem variantB_complete_count_formulas (l s : List Bool) (lmax smax : JsNum)
    (hL : jsLt (.fin 0) lmax = true) (hS : jsLt (.fin 0) smax = true)
    (hl : jsLe lmax (.fin (l.length : ℚ)) = true)
    (hs : jsLe smax (.fin (s.length : ℚ)) = true) :
    VariantB.stateVerdict (.arr l) (.arr s) (.num lmax) (.num smax) =
      .ok { stateInProgress :=
              decide (countTrue l ≥ l.length / 2 ∧
                (countTrue s : ℤ) ≥ (s.length : ℤ) - 1)
            stateStartJudgment :=
              decide (countTrue l = l.length / 2 ∧
                (countTrue s : ℤ) ≥ (s.length : ℤ) - 1)
            stateEndJudgment :=
              decide (countTrue l = l.length / 2 ∧ countTrue s ≤ 1) } :=
  VariantB.stateVerdict_complete l s lmax smax hL hS hl hs

/-- Witness for C5: the claim's concrete instance
`stateVerdict([F,F,T,T],[T,T],4,2) = {inProgress: true, start: true, end: false}`. -/
theorem variantB_complete_count_formulas_witness :
    jsLt (.fin 0) (.fin 4) = true ∧ jsLt (.fin 0) (.fin 2) = true ∧
    jsLe (.fin 4) (.fin (([false, false, true, true] : List Bool).length : ℚ)) = true ∧
    jsLe (.fin 2) (.fin (([true, true] : List Bool).length : ℚ)) = true ∧
    VariantB.stateVerdict (.arr [false, false, true, true]) (.arr [true, true])
        (.num (.fin 4)) (.num (.fin 2)) =
      .ok { stateInProgress := true, stateStartJudgment := true, stateEndJudgment := false } :=
  ⟨by decide, by decide, by decide, by decide,
    (variantB_complete_count_formulas [false, false, true, true] [true, true]
      (.fin 4) (.fin 2) (by decide) (by decide) (by decide) (by decide)).trans (by decide)⟩

/-- C8: in Variant B with both positive maxLengths supplied and complete
histories, whenever the returned start judgment is true, the in-progress flag
is also true; and at the boundary `longTrue == floor(N/2)` with
`shortTrue >= M-1` both flags are simultaneously true (the claim's example
`([F,F,T,T],[T,T],4,2)`). -/
theorem variantB_start_implies_in_progress :
    (∀ (l s : List Bool) (lmax smax : JsNum) (r : VerdictResult),
        jsLt (.fin 0) lmax = true → jsLt (.fin 0) smax = true →
        jsLe lmax (.fin (l.length : ℚ)) = true →
        jsLe smax (.fin (s.length : ℚ)) = true →
        VariantB.stateVerdict (.arr l) (.arr s) (.num lmax) (.num smax) = Except.ok r →
        r.stateStartJudgment = true → r.stateInProgress = true) ∧
    VariantB.stateVerdict (.arr [false, false, true, true]) (.arr [true, true])
        (.num (.fin 4)) (.num (.fin 2)) =
      Except.ok { stateInProgress := true, stateStartJudgment := true, stateEndJudgment := false } := by
  constructor
  · intro l s lmax smax r hL hS hl hs hok hstart
    rw [VariantB.stateVerdict_complete l s lmax smax hL hS hl hs] at hok
    injection hok with hr
    subst hr
    simp only [VariantB.judge, decide_eq_true_eq] at hstart ⊢
    exact ⟨hstart.1.ge, hstart.2⟩
  · exact (VariantB.stateVerdict_complete [false, false, true, true] [true, true]
      (.fin 4) (.fin 2) (by decide) (by decide) (by decide) (by decide)).trans (by decide)

/-- Witness for C8: the implication applied at the boundary input
`([F,F,T,T],[T,T],4,2)`, whose start judgment is true. -/
theorem variantB_start_implies_in_progress_witness :
    jsLt (.fin 0) (.fin 4) = true ∧
    VariantB.stateVerdict (.arr [false, false, true, true]) (.arr [true, true])
        (.num (.fin 4)) (.num (.fin 2)) =
      Except.ok { stateInProgress := true, stateStartJudgment := true, stateEndJudgment := false } ∧
    ({ stateInProgress := true, stateStartJudgment := true, stateEndJudgment := false } :
      VerdictResult).stateInProgress = true := by
  have hok : VariantB.stateVerdict (.arr [false, false, true, true]) (.arr [true, true])
      (.num (.fin 4)) (.num (.fin 2)) =
      Except.ok { stateInProgress := true, stateStartJudgment := true, stateEndJudgment := false } :=
    (VariantB.stateVerdict_complete [false, false, true, true] [true, true]
      (.fin 4) (.fin 2) (by decide) (by decide) (by decide) (by decide)).trans (by decide)
  exact ⟨by decide, hok,
    variantB_start_implies_in_progress.1 [false, false, true, true] [true, true]
      (.fin 4) (.fin 2) _ (by decide) (by decide) (by decide) (by decide) hok rfl⟩

/-- C4: Variant B with both positive maxLengths supplied degrades gracefully:
on an empty history, or a history shorter than its expected maxLength, it
returns all three flags false and throws no error. -/
theorem variantB_graceful_all_false (l s : List Bool) (lmax smax : JsNum)
    (hL : jsLt (.fin 0) lmax = true) (hS : jsLt (.fin 0) smax = true)
    (hcond : l = [] ∨ s = [] ∨ jsLt (.fin (l.length : ℚ)) lmax = true ∨
      jsLt (.fin (s.length : ℚ)) smax = true) :
    VariantB.stateVerdict (.arr l) (.arr s) (.num lmax) (.num smax) =
      .ok allFalseVerdict := by
  rw [VariantB.stateVerdict_num_num l s lmax smax
    (jsLe_zero_eq_false_of_pos hL) (jsLe_zero_eq_false_of_pos hS)]
  rw [VariantB.afterValidation_some_eq]
  by_cases h0 : l.length = 0 ∨ s.length = 0
  · rw [if_pos h0]
  · rw [if_neg h0, if_pos]
    rcases hcond with rfl | rfl | h | h
    · exact absurd (Or.inl rfl) h0
    · exact absurd (Or.inr rfl) h0
    · exact Or.inl h
    · exact Or.inr h

/-- Witness for C4: an incomplete long history,
`stateVerdict([T,T,T],[T,T],5,2)`, yields the all-false verdict. -/
theorem variantB_graceful_all_false_witness :
    jsLt (.fin 0) (.fin 5) = true ∧ jsLt (.fin 0) (.fin 2) = true ∧
    jsLt (.fin (([true, true, true] : List Bool).length : ℚ)) (.fin 5) = true ∧
    VariantB.stateVerdict (.arr [true, true, true]) (.arr [true, true])
        (.num (.fin 5)) (.num (.fin 2)) = .ok allFalseVerdict :=
  ⟨by decide, by decide, by decide,
    variantB_graceful_all_false [true, true, true] [true, true] (.fin 5) (.fin 2)
      (by decide) (by decide) (Or.inr (Or.inr (Or.inl (by decide))))⟩

/-- Spec-side definition for the refinement claim C3, following the spec's
words for the omitted-maxLength call: "behave as a looser pass-through —
compute directly from N, M without the incomplete-history short-circuit,
using the same floor/count formulas above (this is effectively Variant B's
math without the completeness gate)".  Variant B's empty-sequence all-false
rule is part of that math; only the completeness gate is removed. -/
def specLoosePassThrough (longH shortH : List Bool) : VerdictResult :=
  if longH.length = 0 ∨ shortH.length = 0 then
    allFalseVerdict
  else
    { stateInProgress :=
        decide (countTrue longH ≥ longH.length / 2 ∧
          (countTrue shortH : ℤ) ≥ (shortH.length : ℤ) - 1)
      stateStartJudgment :=
        decide (countTrue longH = longH.length / 2 ∧
          (countTrue shortH : ℤ) ≥ (shortH.length : ℤ) - 1)
      stateEndJudgment :=
        decide (countTrue longH = longH.length / 2 ∧ countTrue shortH ≤ 1) }

/-- C3: calling Variant B's `stateVerdict` with both length parameters omitted
is equal, as a function of the two arrays, to Variant B's floor/count math
without the completeness gate: the incomplete-history short-circuit is never
applied, and the flags are computed directly from `N = length(long)` and
`M = length(short)`. -/
theorem variantB_omitted_params_pass_through (l s : List Bool) :
    VariantB.stateVerdict (.arr l) (.arr s) .undef .undef =
      .ok (specLoosePassThrough l s) := by
  rw [VariantB.stateVerdict_undef_undef, VariantB.afterValidation_none_eq]
  unfold specLoosePassThrough
  by_cases h0 : l.length = 0 ∨ s.length = 0
  · rw [if_pos h0, if_pos h0]
  · rw [if_neg h0, if_neg h0]
    rfl

/-- C10: with NaN supplied for both maxLength parameters and array histories,
Variant B raises no error (NaN passes the positive-number validation since
`NaN <= 0` is false), and since `length < NaN` is always false the
incomplete-history gate never triggers: the call behaves exactly as the
omitted-parameters call, evaluating the count formulas as if the histories
were complete. -/
theorem variantB_nan_passthrough (l s : List Bool) :
    VariantB.stateVerdict (.arr l) (.arr s) (.num .nan) (.num .nan) =
      VariantB.stateVerdict (.arr l) (.arr s) .undef .undef ∧
    ∃ r, VariantB.stateVerdict (.arr l) (.arr s) (.num .nan) (.num .nan) =
      Except.ok r := by
  have h1 : VariantB.stateVerdict (.arr l) (.arr s) (.num .nan) (.num .nan) =
      .ok (VariantB.afterValidation l s (some .nan) (some .nan)) :=
    VariantB.stateVerdict_num_num l s .nan .nan rfl rfl
  have h2 : VariantB.afterValidation l s (some .nan) (some .nan) =
      VariantB.afterValidation l s none none := by
    rw [VariantB.afterValidation_some_eq, VariantB.afterValidation_none_eq]
    by_cases h0 : l.length = 0 ∨ s.length = 0
    · rw [if_pos h0, if_pos h0]
    · rw [if_neg h0, if_neg h0, if_neg]
      rintro (h | h) <;> exact Bool.false_ne_true h
  refine ⟨?_, _, h1⟩
  rw [h1, h2, VariantB.stateVerdict_undef_undef]

/-- A bad `longMaxLength` argument is reported first. -/
theorem VariantB.stateVerdict_badLong (l s : List Bool) (a b : MaxLenArg)
    (ha : VariantB.badMaxLen a = true) :
    VariantB.stateVerdict (.arr l) (.arr s) a b =
      .error "longMaxLength must be a positive number" := by
  simp [VariantB.stateVerdict, ha]

/-- A bad `shortMaxLength` argument is reported when `longMaxLength` is fine. -/
theorem VariantB.stateVerdict_badShort (l s : List Bool) (a b : MaxLenArg)
    (ha : VariantB.badMaxLen a = false) (hb : VariantB.badMaxLen b = true) :
    VariantB.stateVerdict (.arr l) (.arr s) a b =
      .error "shortMaxLength must be a positive number" := by
  simp [VariantB.stateVerdict, ha, hb]

/-- With both individual maxLength arguments fine but only one supplied, the
provided-together error is thrown. -/
theorem VariantB.stateVerdict_together (l s : List Bool) (a b : MaxLenArg)
    (ha : VariantB.badMaxLen a = false) (hb : VariantB.badMaxLen b = false)
    (hab : ((a == MaxLenArg.undef) != (b == MaxLenArg.undef)) = true) :
    VariantB.stateVerdict (.arr l) (.arr s) a b =
      .error "Both maxLength parameters must be provided together" := by
  simp [VariantB.stateVerdict, ha, hb, hab]

/-- Counterexample to C6 as stated: NaN is not a positive numeric value (it is
not `> 0` under JavaScript comparison), yet supplying NaN for both length
parameters does not fail — the call returns a result. -/
theorem variantB_nan_not_rejected :
    jsLt (.fin 0) JsNum.nan = false ∧
    VariantB.stateVerdict (.arr [true, true]) (.arr [true, true])
        (.num .nan) (.num .nan) =
      .ok { stateInProgress := true, stateStartJudgment := false, stateEndJudgment := false } := by
  decide

/-- C6 (amended): with array histories, if exactly one of the two maxLength
parameters is supplied, the call fails with `InvalidArgument`; and if a
supplied parameter is a non-numeric value, or a numeric value `x` with
`x <= 0` true under JavaScript comparison (NaN compares false on both sides
and therefore passes the validation), the call fails with `InvalidArgument`. -/
theorem variantB_maxlen_validation :
    (∀ (l s : List Bool) (a b : MaxLenArg),
        (a = .undef ∧ b ≠ .undef) ∨ (a ≠ .undef ∧ b = .undef) →
        ∃ m, VariantB.stateVerdict (.arr l) (.arr s) a b = .error m ∧
          isInvalidArgument m = true) ∧
    (∀ (l s : List Bool) (a b : MaxLenArg),
        (a = .notNum ∨ (∃ x, a = .num x ∧ jsLe x (.fin 0) = true)) ∨
        (b = .notNum ∨ (∃ x, b = .num x ∧ jsLe x (.fin 0) = true)) →
        ∃ m, VariantB.stateVerdict (.arr l) (.arr s) a b = .error m ∧
          isInvalidArgument m = true) := by
  constructor
  · intro l s a b hab
    by_cases ha : VariantB.badMaxLen a = true
    · exact ⟨"longMaxLength must be a positive number",
        VariantB.stateVerdict_badLong l s a b ha, by decide⟩
    · have ha' : VariantB.badMaxLen a = false := by simpa using ha
      by_cases hb : VariantB.badMaxLen b = true
      · exact ⟨"shortMaxLength must be a positive number",
          VariantB.stateVerdict_badShort l s a b ha' hb, by decide⟩
      · have hb' : VariantB.badMaxLen b = false := by simpa using hb
        refine ⟨"Both maxLength parameters must be provided together",
          VariantB.stateVerdict_together l s a b ha' hb' ?_, by decide⟩
        rcases hab with ⟨rfl, hbne⟩ | ⟨hane, rfl⟩
        · cases b with
          | undef => exact absurd rfl hbne
          | notNum => rfl
          | num x => rfl
        · cases a with
          | undef => exact absurd rfl hane
          | notNum => rfl
          | num x => rfl
  · intro l s a b h
    have hcases : VariantB.badMaxLen a = true ∨
        (VariantB.badMaxLen a = false ∧ VariantB.badMaxLen b = true) := by
      rcases h with (rfl | ⟨x, rfl, hx⟩) | hb
      · exact Or.inl rfl
      · exact Or.inl (by simpa [VariantB.badMaxLen] using hx)
      · by_cases ha : VariantB.badMaxLen a = true
        · exact Or.inl ha
        · refine Or.inr ⟨by simpa using ha, ?_⟩
          rcases hb with rfl | ⟨x, rfl, hx⟩
          · rfl
          · simpa [VariantB.badMaxLen] using hx
    rcases hcases with ha | ⟨ha, hb⟩
    · exact ⟨"longMaxLength must be a positive number",
        VariantB.stateVerdict_badLong l s a b ha, by decide⟩
    · exact ⟨"shortMaxLength must be a positive number",
        VariantB.stateVerdict_badShort l s a b ha hb, by decide⟩

/-- Witness for C6 (amended): only `shortMaxLength` supplied gives an
`InvalidArgument` error, and a supplied zero `longMaxLength` gives an
`InvalidArgument` error. -/
theorem variantB_maxlen_validation_witness :
    (∃ m, VariantB.stateVerdict (.arr [true]) (.arr [true]) .undef (.num (.fin 1)) =
      .error m ∧ isInvalidArgument m = true) ∧
    (∃ m, VariantB.stateVerdict (.arr [true]) (.arr [true]) (.num (.fin 0)) (.num (.fin 1)) =
      .error m ∧ isInvalidArgument m = true) :=
  ⟨variantB_maxlen_validation.1 [true] [true] .undef (.num (.fin 1))
    (Or.inl ⟨rfl, by decide⟩),
   variantB_maxlen_validation.2 [true] [true] (.num (.fin 0)) (.num (.fin 1))
    (Or.inl (Or.inr ⟨.fin 0, rfl, by decide⟩))⟩

/-! FixedQueue lemmas. -/

/-- `push` never changes the capacity. -/
theorem FixedQueue.push_maxLength {α : Type} (q : FixedQueue α) (x : α) :
    (q.push x).maxLength = q.maxLength := by
  simp only [FixedQueue.push]
  split <;> rfl

/-- Under the capacity invariant, `push` keeps exactly the most recent
elements: the appended list with its excess head dropped. -/
theorem FixedQueue.push_items {α : Type} (q : FixedQueue α) (x : α)
    (h : q.items.length ≤ q.maxLength) :
    (q.push x).items = (q.items ++ [x]).drop (q.items.length + 1 - q.maxLength) := by
  simp only [FixedQueue.push]
  split
  · next hgt =>
    have hlen : q.items.length + 1 - q.maxLength = 1 := by
      simp only [List.length_append, List.length_singleton] at hgt
      omega
    rw [hlen]
  · next hle =>
    have hlen : q.items.length + 1 - q.maxLength = 0 := by
      simp only [List.length_append, List.length_singleton] at hle
      omega
    rw [hlen, List.drop_zero]

/-- `push` preserves the capacity invariant. -/
theorem FixedQueue.push_length_le {α : Type} (q : FixedQueue α) (x : α)
    (h : q.items.length ≤ q.maxLength) :
    (q.push x).items.length ≤ q.maxLength := by
  rw [FixedQueue.push_items q x h]
  simp only [List.length_drop, List.length_append, List.length_singleton]
  omega

/-- Dropping from a left part and appending is dropping from the whole. -/
theorem List.drop_append_drop_eq {α : Type} (A xs : List α) (d e : Nat)
    (hd : d ≤ A.length) :
    (A.drop d ++ xs).drop e = (A ++ xs).drop (d + e) := by
  rw [← List.drop_append_of_le_length hd, List.drop_drop]

/-- Under the capacity invariant, pushing a whole sequence keeps exactly the
most recent elements of the concatenation. -/
theorem FixedQueue.pushAll_items {α : Type} (xs : List α) :
    ∀ (q : FixedQueue α), q.items.length ≤ q.maxLength →
      (q.pushAll xs).items =
        (q.items ++ xs).drop (q.items.length + xs.length - q.maxLength) := by
  induction xs with
  | nil =>
    intro q h
    simp [FixedQueue.pushAll, Nat.sub_eq_zero_of_le h]
  | cons x xs ih =>
    intro q h
    have hinv : (q.push x).items.length ≤ (q.push x).maxLength := by
      rw [FixedQueue.push_maxLength]
      exact FixedQueue.push_length_le q x h
    have hstep : FixedQueue.pushAll q (x :: xs) = FixedQueue.pushAll (q.push x) xs := rfl
    rw [hstep, ih (q.push x) hinv, FixedQueue.push_maxLength,
      FixedQueue.push_items q x h]
    rw [List.drop_append_drop_eq _ _ _ _
      (by simp only [List.length_append, List.length_cons, List.length_nil]; omega)]
    have hlist : (q.items ++ [x]) ++ xs = q.items ++ x :: xs := by
      rw [List.append_assoc]
      rfl
    rw [hlist]
    have hamount : q.items.length + 1 - q.maxLength +
        (((q.items ++ [x]).drop (q.items.length + 1 - q.maxLength)).length +
          xs.length - q.maxLength) =
        q.items.length + (x :: xs).length - q.maxLength := by
      simp only [List.length_drop, List.length_append, List.length_cons,
        List.length_nil]
      omega
    rw [hamount]

/-- Pushing any sequence preserves the capacity invariant. -/
theorem FixedQueue.pushAll_length_le {α : Type} (xs : List α) (q : FixedQueue α)
    (h : q.items.length ≤ q.maxLength) :
    (q.pushAll xs).items.length ≤ q.maxLength := by
  rw [FixedQueue.pushAll_items xs q h]
  simp only [List.length_drop, List.length_append]
  omega

/-- Inversion for a successful `createFixedQueue` call at a natural-number
capacity: the capacity was positive and the queue starts empty. -/
theorem createFixedQueue_ok {α : Type} {n : ℕ} {q : FixedQueue α}
    (h : createFixedQueue α (.fin (n : ℚ)) = Except.ok q) :
    0 < n ∧ q = ⟨n, []⟩ := by
  unfold createFixedQueue at h
  by_cases hn : n = 0
  · subst hn
    simp [jsIsInteger, jsLe] at h
  · have hpos : 0 < n := Nat.pos_of_ne_zero hn
    have hcond : (!jsIsInteger (.fin (n : ℚ)) || jsLe (.fin (n : ℚ)) (.fin 0)) = false := by
      simp [jsIsInteger, jsLe, Rat.den_natCast, hn]
    rw [if_neg (by rw [hcond]; exact Bool.false_ne_true)] at h
    injection h with h
    refine ⟨hpos, ?_⟩
    rw [← h]
    congr 1

/-- C9: a FixedQueue created with a positive integer capacity satisfies
`0 <= length <= maxLength` after every push of any sequence (pushing beyond
capacity drops the oldest element), and after pushing all `k` items `toArray`
returns exactly the most recent `min(k, maxLength)` items in oldest-first
order: the suffix `xs.drop (xs.length - maxLength)`, whose length is
`min xs.length maxLength`. -/
theorem fixedQueue_bounded_and_most_recent (α : Type) (n : ℕ) (q0 : FixedQueue α)
    (xs : List α) (h : createFixedQueue α (.fin (n : ℚ)) = Except.ok q0) :
    (∀ i, (q0.pushAll (xs.take i)).length ≤ q0.maxLength) ∧
    (q0.pushAll xs).toArray = xs.drop (xs.length - q0.maxLength) ∧
    (q0.pushAll xs).toArray.length = min xs.length q0.maxLength := by
  obtain ⟨hpos, rfl⟩ := createFixedQueue_ok h
  have heq := FixedQueue.pushAll_items xs ⟨n, []⟩ (by simp)
  simp only [List.nil_append, List.length_nil, Nat.zero_add] at heq
  refine ⟨?_, ?_, ?_⟩
  · intro i
    exact FixedQueue.pushAll_length_le (xs.take i) ⟨n, []⟩ (by simp)
  · simp only [FixedQueue.toArray]
    exact heq
  · simp only [FixedQueue.toArray]
    rw [heq]
    simp only [List.length_drop]
    omega

/-- Witness for C9: capacity 2, pushing three items keeps the most recent two
in order. -/
theorem fixedQueue_bounded_and_most_recent_witness :
    createFixedQueue Bool (.fin ((2 : ℕ) : ℚ)) =
      Except.ok (⟨2, []⟩ : FixedQueue Bool) ∧
    (FixedQueue.pushAll (⟨2, []⟩ : FixedQueue Bool) [true, false, true]).toArray =
      [false, true] := by
  have h : createFixedQueue Bool (.fin ((2 : ℕ) : ℚ)) =
      Except.ok (⟨2, []⟩ : FixedQueue Bool) := by decide
  obtain ⟨-, h2, -⟩ :=
    fixedQueue_bounded_and_most_recent Bool 2 ⟨2, []⟩ [true, false, true] h
  exact ⟨h, h2.trans (by decide)⟩
